import Mathlib

/-!
Shallow embedding of `src/triage.py` (deterministic incident triage).

Python is dynamically typed, so values that the source may use at more
than one runtime type are modelled by the small dynamic type `PyVal`
(booleans and lists of strings), and operations that can raise a runtime
exception (`len` on a non-sequence, explicit `raise ValueError`) are
modelled in `Except PyErr`.  In particular `_contains_any` in the source
returns `any(k for k in keywords if k in t)` — a `bool`, despite its
`List[str]` annotation — and this is embedded faithfully.

Python `float` literals appearing in the source are all short decimal
constants combined linearly; they are modelled as exact rationals (ℚ).
`hash(text)` (process-seeded) and `datetime.now` are modelled as explicit
parameters of the orchestrator.
-/

/-- Runtime exceptions that the embedded code can raise.  `valueError`
models the explicit `raise ValueError("incident text is required")`;
`typeError` models the dynamic failure of `len()` applied to a `bool`. -/
inductive PyErr where
  | valueError
  | typeError
  deriving Repr, DecidableEq

/-- Dynamic values flowing through the "matched keywords" slots: the source
mixes `bool` results of `_contains_any` with genuine `List[str]` values. -/
inductive PyVal where
  | bool (b : Bool)
  | strList (l : List String)
  deriving Repr, DecidableEq

/-- Python truthiness for `PyVal` (`if impact_matches:`). -/
def pyTruthy : PyVal → Bool
  | .bool b => b
  | .strList l => !l.isEmpty

/-- Python `len` on a `PyVal`: defined on lists, a `TypeError` on booleans. -/
def pyLen : PyVal → Except PyErr Nat
  | .strList l => .ok l.length
  | .bool _ => .error .typeError

/-- ASCII lowercasing of one character (Python `str.lower` restricted to
the ASCII range, which covers every keyword table in the source). -/
def pyLowerChar (c : Char) : Char :=
  if 65 ≤ c.toNat ∧ c.toNat ≤ 90 then Char.ofNat (c.toNat + 32) else c

/-- Python `text.lower()`. -/
def pyLower (s : String) : String := String.mk (s.data.map pyLowerChar)

/-- Python `str.isspace` on the ASCII whitespace characters stripped by
`str.strip()`. -/
def pyIsSpace (c : Char) : Bool :=
  c == ' ' || c == Char.ofNat 9 || c == Char.ofNat 10 ||
    c == Char.ofNat 13 || c == Char.ofNat 11 || c == Char.ofNat 12

/-- Python `text.strip()`: drop leading and trailing whitespace. -/
def pyStrip (s : String) : String :=
  String.mk (((s.data.dropWhile pyIsSpace).reverse.dropWhile pyIsSpace).reverse)

/-- `needle` is a prefix of `hay` (on character lists). -/
def listStartsWith : List Char → List Char → Bool
  | [], _ => true
  | _ :: _, [] => false
  | a :: as, b :: bs => a == b && listStartsWith as bs

/-- Substring containment on character lists: some suffix of `hay` starts
with `needle`. -/
def listContainsSub (needle : List Char) : List Char → Bool
  | [] => needle.isEmpty
  | c :: rest => listStartsWith needle (c :: rest) || listContainsSub needle rest

/-- Python `needle in hay` for strings (substring containment). -/
def pyStrIn (needle hay : String) : Bool :=
  listContainsSub needle.data hay.data

/-- The single-quote character, used by Python `repr` of strings. -/
def pyQuote : String := String.singleton (Char.ofNat 39)

/-- Python `repr` of a string (as used inside f-string list formatting). -/
def pyReprStr (s : String) : String := pyQuote ++ s ++ pyQuote

/-- Python `str`/f-string rendering of a `PyVal` (`True`, `False`, or a
list literal). -/
def pyRepr : PyVal → String
  | .bool true => "True"
  | .bool false => "False"
  | .strList l => "[" ++ String.intercalate ", " (l.map pyReprStr) ++ "]"

/-- Source `Category` enum (values are the Python enum string values). -/
inductive Category where
  | IT_OPS
  | CUSTOMER_SUPPORT
  | OPERATIONS
  | ENGINEERING
  | GENERAL_OPS
  deriving Repr, DecidableEq

/-- Source `Urgency` enum (`UNKNOWN` exists but is never produced). -/
inductive Urgency where
  | HIGH
  | MEDIUM
  | LOW
  | UNKNOWN
  deriving Repr, DecidableEq

/-- Python enum string value of a `Category`. -/
def Category.value : Category → String
  | .IT_OPS => "IT Ops"
  | .CUSTOMER_SUPPORT => "Customer Support"
  | .OPERATIONS => "Operations"
  | .ENGINEERING => "Engineering"
  | .GENERAL_OPS => "General Ops"

/-- Python enum string value of an `Urgency`. -/
def Urgency.value : Urgency → String
  | .HIGH => "High"
  | .MEDIUM => "Medium"
  | .LOW => "Low"
  | .UNKNOWN => "Unknown"

/-- Output record of `triage_incident` (the `IncidentTicket` dataclass). -/
structure IncidentTicket where
  ticket_id : String
  created_at_utc : String
  title : String
  description : String
  category : Category
  urgency : Urgency
  impact : String
  suspected_systems : List String
  matched_keywords : List (String × PyVal)
  reasoning : List String
  confidence : ℚ
  needs_human_review : Bool
  missing_info_questions : List String
  next_actions : List String
  recommended_runbooks : List String
  citations : List (List (String × String))
  deriving Repr

/-- `_normalize(text)`: `(text or "").strip()`.  The argument is an
`Option String` because the Python parameter may dynamically be `None`;
`None or ""` and `"" or ""` both yield `""`. -/
def _normalize (text : Option String) : String :=
  pyStrip (match text with
    | none => ""
    | some s => if s == "" then "" else s)

/-- `_contains_any(text, keywords)`: the source computes
`any(k for k in keywords if k in t)` over the lowercased text, so the
result is a boolean — true iff some (truthy, i.e. non-empty) keyword is a
substring. -/
def _contains_any (text : String) (keywords : List String) : Bool :=
  let t := pyLower text
  keywords.any fun k => pyStrIn k t && !(k == "")

/-- Apostrophe-bearing keyword `can,t` (with a single quote) from
`URGENCY_HIGH`, built from character code 39. -/
def cantKeyword : String := "can" ++ pyQuote ++ "t"

/-- `CATEGORY_RULES`: ordered `(category, keywords, suspected_systems)`. -/
def CATEGORY_RULES : List (Category × List String × List String) :=
  [ (Category.IT_OPS, ["login", "auth", "authentication", "sso", "password", "token", "vpn", "dns"], ["Authentication"]),
    (Category.CUSTOMER_SUPPORT, ["payment", "checkout", "refund", "charge", "billing", "invoice"], ["Payments/Billing"]),
    (Category.OPERATIONS, ["shipment", "delivery", "warehouse", "route", "fleet", "dispatch"], ["Logistics"]),
    (Category.ENGINEERING, ["build failed", "ci", "pipeline", "deploy", "release", "bug", "rollback"], ["CI/CD"]) ]

/-- `URGENCY_HIGH` keyword list. -/
def URGENCY_HIGH : List String :=
  ["outage", "down", "unable", "cannot", cantKeyword, "sev1", "critical", "p0", "blocker"]

/-- `URGENCY_MED` keyword list. -/
def URGENCY_MED : List String :=
  ["slow", "intermittent", "sometimes", "degraded", "latency", "flaky"]

/-- `IMPACT_BROAD` keyword list. -/
def IMPACT_BROAD : List String :=
  ["multiple teams", "all users", "everyone", "company-wide", "entire org"]

/-- `IMPACT_CUSTOMER` keyword list. -/
def IMPACT_CUSTOMER : List String :=
  ["customer", "customers", "clients", "buyers", "users affected"]

/-- `ACTION_PLAYBOOK`: category → three playbook steps (total map, so the
`.get(category, default)` fallback in the source is never exercised). -/
def ACTION_PLAYBOOK : Category → List String
  | Category.IT_OPS =>
      [ "Check service health dashboards and recent changes/deploys",
        "Collect an error message/code and a timestamp of a failing attempt",
        "Identify affected scope (which users/teams, which region, which environment)" ]
  | Category.CUSTOMER_SUPPORT =>
      [ "Confirm scope (which customers, region, account tier) and collect examples",
        "Collect IDs (order/transaction/customer) and timestamps for failures",
        "Check third-party provider status pages if applicable" ]
  | Category.OPERATIONS =>
      [ "Confirm affected locations/routes and time window",
        "Collect relevant IDs (shipment/order/vehicle) and current status",
        "Check upstream dependencies (vendors, inventory, dispatch systems)" ]
  | Category.ENGINEERING =>
      [ "Identify failing step and capture logs/error output",
        "Check recent changes (PRs, releases) and rollback options",
        "Confirm environment (prod/stage), version, and reproduction steps" ]
  | Category.GENERAL_OPS =>
      [ "Clarify the goal and success criteria",
        "Identify owner/team responsible",
        "Collect relevant IDs, timestamps, and any error details" ]

/-- The `for cat, keywords, suspected in CATEGORY_RULES:` loop of
`_classify_category`.  Each iteration computes
`matches = _contains_any(raw, keywords)` (a boolean) and then evaluates
`len(matches) > len(best_matches)`; `len` of the boolean raises
`TypeError`. -/
def categoryLoop (raw : String) :
    List (Category × List String × List String) →
    Category × PyVal × List String →
    Except PyErr (Category × PyVal × List String)
  | [], best => .ok best
  | (cat, keywords, suspected) :: rest, (bc, bm, bs) =>
    let matchesVal := PyVal.bool (_contains_any raw keywords)
    match pyLen matchesVal with
    | .error e => .error e
    | .ok lm =>
      match pyLen bm with
      | .error e => .error e
      | .ok lb =>
        if lm > lb then categoryLoop raw rest (cat, matchesVal, suspected)
        else categoryLoop raw rest (bc, bm, bs)

/-- `_classify_category(raw)`: returns `(category, matched_keywords,
suspected_systems, confidence, reasoning_lines)` or the runtime error the
loop raises. -/
def _classify_category (raw : String) :
    Except PyErr (Category × PyVal × List String × ℚ × List String) :=
  match categoryLoop raw CATEGORY_RULES (Category.GENERAL_OPS, PyVal.strList [], []) with
  | .error e => .error e
  | .ok (best_category, best_matches, best_suspected) =>
    match pyLen best_matches with
    | .error e => .error e
    | .ok n =>
      let conf : ℚ :=
        if n ≥ 3 then 0.85 else if n == 2 then 0.70 else if n == 1 then 0.55 else 0.40
      let reasoning : List String :=
        if best_category == Category.GENERAL_OPS then
          ["No strong category keywords matched; defaulted to General Ops."]
        else
          ["Category inferred from keywords: " ++ pyRepr best_matches ++ "."]
      .ok (best_category, best_matches, best_suspected, conf, reasoning)

/-- Body of `_classify_urgency`, abstracted over the two global indicator
lists (the source reads the globals `URGENCY_HIGH` and `URGENCY_MED`).
Returns `(urgency, matched, confidence, reasoning)`; the matched slot is
the boolean `_contains_any` result in the High/Medium branches and the
literal `[]` in the Low branch, exactly as in the source. -/
def classifyUrgencyCore (highs meds : List String) (raw : String) :
    Urgency × PyVal × ℚ × List String :=
  let matched_high := _contains_any raw highs
  let matched_med := _contains_any raw meds
  if matched_high then
    (Urgency.HIGH, PyVal.bool matched_high, 0.80,
      ["Urgency set to High due to indicators: " ++ pyRepr (PyVal.bool matched_high) ++ "."])
  else if matched_med then
    (Urgency.MEDIUM, PyVal.bool matched_med, 0.65,
      ["Urgency set to Medium due to indicators: " ++ pyRepr (PyVal.bool matched_med) ++ "."])
  else
    (Urgency.LOW, PyVal.strList [], 0.55,
      ["No urgency indicators found; set to Low."])

/-- `_classify_urgency(raw)` with the source's global indicator lists. -/
def _classify_urgency (raw : String) : Urgency × PyVal × ℚ × List String :=
  classifyUrgencyCore URGENCY_HIGH URGENCY_MED raw

/-- `_infer_impact(raw)`: `(impact, matched, reasoning)`; the matched slot
is again the boolean `_contains_any` result when a branch fires. -/
def _infer_impact (raw : String) : String × PyVal × List String :=
  let broad := _contains_any raw IMPACT_BROAD
  let customer := _contains_any raw IMPACT_CUSTOMER
  if broad then
    ("Broad impact (many users/teams)", PyVal.bool broad,
      ["Impact inferred as broad due to keywords."])
  else if customer then
    ("Customer-facing impact", PyVal.bool customer,
      ["Impact inferred as customer-facing due to keywords."])
  else
    ("Unknown/unclear impact", PyVal.strList [],
      ["Impact not clearly specified; left as unknown."])

/-- `_missing_info_questions(raw)`: four independent checks appended in
source order (the sequential `questions.append` calls are rendered as list
concatenation, which preserves the order). -/
def _missing_info_questions (raw : String) : List String :=
  (if _contains_any raw ["started", "since", "minutes", "hours", "today", "yesterday", "timestamp", "am", "pm"] = false then
      ["When did this start (approx. time and timezone)?"]
    else []) ++
  (if _contains_any raw ["error", "message", "code", "screenshot", "log", "stacktrace", "trace"] = false then
      ["Do you have an error message, code, or log snippet?"]
    else []) ++
  (if _contains_any raw ["affects", "impact", "users", "teams", "customers", "everyone", "all users"] = false then
      ["Who is affected (team/customers/how many users)?"]
    else []) ++
  (if _contains_any raw ["prod", "production", "staging", "dev", "test environment"] = false then
      ["Which environment is affected (prod/staging/dev)?"]
    else [])

/-- Left-pad a decimal string with zeros (Python `f"{base:08d}"`). -/
def zfill (w : Nat) (s : String) : String :=
  if s.length ≥ w then s
  else String.mk (List.replicate (w - s.length) '0') ++ s

/-- `_simple_ticket_id(text)`: `abs(hash(text)) % 10**8` formatted as
`INC-` plus eight digits, with the process-seeded `hash` builtin passed in
as the explicit parameter `h`. -/
def _simple_ticket_id (h : String → Int) (text : String) : String :=
  let base := (h text).natAbs % 10 ^ 8
  "INC-" ++ zfill 8 (toString base)

/-- Round-half-to-even on ℚ (Python `round` on an exact value). -/
def roundHalfEven (q : ℚ) : ℤ :=
  let f : ℤ := Int.floor q
  let frac : ℚ := q - (f : ℚ)
  if frac < 1 / 2 then f
  else if frac > 1 / 2 then f + 1
  else if f % 2 = 0 then f else f + 1

/-- Python `round(x, n)` on an exact rational. -/
def pyRound (q : ℚ) (ndigits : Nat) : ℚ :=
  let m : ℚ := (10 : ℚ) ^ ndigits
  (roundHalfEven (q * m) : ℚ) / m

/-- First line of a string (`splitlines()[0]` for the common `\n`/`\r`
terminators). -/
def firstLine (s : String) : String :=
  String.mk (s.data.takeWhile fun c => !(c == Char.ofNat 10) && !(c == Char.ofNat 13))

/-- Python slice `s[:n]` (by characters). -/
def pySlice (n : Nat) (s : String) : String := String.mk (s.data.take n)

/-- `triage_incident(text)`.  `h` models the process-seeded `hash` builtin
used by `_simple_ticket_id`; `now` models `datetime.now(timezone.utc)`;
the text is `Option String` because the parameter may dynamically be
`None`.  Error paths (`raise ValueError`, and any `TypeError` from the
classifiers) are explicit `Except.error` values. -/
def triage_incident (h : String → Int) (now : String) (text : Option String) :
    Except PyErr IncidentTicket :=
  let raw := _normalize text
  if raw = "" then Except.error PyErr.valueError
  else
    let title := if raw ≠ "" then pySlice 80 (firstLine raw) else "Untitled incident"
    let matched_keywords : List (String × PyVal) := []
    let reasoning : List String := []
    match _classify_category raw with
    | .error e => .error e
    | .ok (category, cat_matches, suspected, cat_conf, cat_reason) =>
      let matched_keywords := matched_keywords ++ [("category", cat_matches)]
      let reasoning := reasoning ++ cat_reason
      let (urgency, urg_matches, urg_conf, urg_reason) := _classify_urgency raw
      let matched_keywords := matched_keywords ++ [("urgency", urg_matches)]
      let reasoning := reasoning ++ urg_reason
      let (impact, impact_matches, impact_reason) := _infer_impact raw
      let matched_keywords :=
        if pyTruthy impact_matches then matched_keywords ++ [("impact", impact_matches)]
        else matched_keywords
      let reasoning := reasoning ++ impact_reason
      let questions := _missing_info_questions raw
      let confidence :=
        pyRound ((0.55 * cat_conf) + (0.35 * urg_conf) +
          (0.10 * (if impact ≠ "Unknown/unclear impact" then (0.75 : ℚ) else 0.45))) 2
      let needs_review := false
      let (needs_review, reasoning) :=
        if category = Category.GENERAL_OPS ∧ confidence < 0.55 then
          (true, reasoning ++ ["Low confidence category; recommend human review."])
        else (needs_review, reasoning)
      let (needs_review, reasoning) :=
        if urgency = Urgency.HIGH ∧ pyStrIn "error" (pyLower raw) = false ∧
            pyStrIn "log" (pyLower raw) = false then
          (true, reasoning ++ ["High urgency without supporting error/log details; recommend human review."])
        else (needs_review, reasoning)
      let (needs_review, reasoning) :=
        if questions.length ≥ 3 then
          (true, reasoning ++ ["Multiple missing critical fields; recommend collecting info before actioning."])
        else (needs_review, reasoning)
      let next_actions := ACTION_PLAYBOOK category
      let recommended_runbooks :=
        if category = Category.IT_OPS ∧ "Authentication" ∈ suspected then
          ["RBK-IT-AUTH-001", "RBK-IT-SSO-002"]
        else if category = Category.CUSTOMER_SUPPORT then ["RBK-CS-PAYMENTS-010"]
        else if category = Category.ENGINEERING then ["RBK-ENG-CICD-101"]
        else if category = Category.OPERATIONS then ["RBK-OPS-LOGISTICS-050"]
        else []
      Except.ok
        { ticket_id := _simple_ticket_id h raw
          created_at_utc := now
          title := title
          description := raw
          category := category
          urgency := urgency
          impact := impact
          suspected_systems := suspected
          matched_keywords := matched_keywords
          reasoning := reasoning
          confidence := confidence
          needs_human_review := needs_review
          missing_info_questions := questions
          next_actions := next_actions
          recommended_runbooks := recommended_runbooks
          citations := [] }

/-!  Shared lemmas about the embedded code. -/

/-- The category classifier raises `TypeError` on every input: the first
loop iteration applies `len` to the boolean `_contains_any` result. -/
theorem classifyCategory_eq_typeError (raw : String) :
    _classify_category raw = Except.error PyErr.typeError := rfl

/-- Whenever the trimmed text is non-empty, `triage_incident` propagates
the `TypeError` raised inside `_classify_category`. -/
theorem triage_typeError_of_nonempty (h : String → Int) (now : String)
    (t : Option String) (hne : _normalize t ≠ "") :
    triage_incident h now t = Except.error PyErr.typeError := by
  simp only [triage_incident, if_neg hne, classifyCategory_eq_typeError]

/-- Whenever the trimmed text is empty, `triage_incident` raises the
`ValueError` of the validation step. -/
theorem triage_valueError_of_empty (h : String → Int) (now : String)
    (t : Option String) (hz : _normalize t = "") :
    triage_incident h now t = Except.error PyErr.valueError := by
  simp only [triage_incident, if_pos hz]

/-!  Claim theorems. -/

/-- C1: the spec claims that for every input that is non-empty after
trimming, `triage_incident` never fails and returns a well-formed record.
The code refutes this: for every such input it raises `TypeError`,
because `_contains_any` returns `any(...)` — a boolean — and
`_classify_category` applies `len()` to it.  This theorem evaluates the
code on the claim's domain and shows the failure. -/
theorem C1_nonempty_input_raises (h : String → Int) (now : String) (text : String)
    (hne : _normalize (some text) ≠ "") :
    triage_incident h now (some text) = Except.error PyErr.typeError :=
  triage_typeError_of_nonempty h now (some text) hne

/-- Witness for C1 at the concrete non-empty input `"outage"`. -/
theorem C1_nonempty_input_raises_witness :
    _normalize (some "outage") ≠ "" ∧
    triage_incident (fun _ => 0) "" (some "outage") = Except.error PyErr.typeError :=
  ⟨by decide, C1_nonempty_input_raises (fun _ => 0) "" "outage" (by decide)⟩

/-- C2: the spec claims the category classifier counts, for each rule, how
many of its keywords occur in the text and keeps the strictly best rule,
defaulting to General Ops.  The code refutes this: `_contains_any` returns
a boolean, `len()` of it raises `TypeError` already on the first rule, so
`_classify_category` fails on every input instead of scoring rules. -/
theorem C2_category_classifier_raises (raw : String) :
    _classify_category raw = Except.error PyErr.typeError := rfl

/-- C3: the spec claims every returned ticket carries a
`matched_keywords` mapping built from the rule tables.  No ticket is ever
returned: at the concrete input `"payment checkout refund"` (three
Customer Support keywords) the call raises `TypeError` before the mapping
is assembled. -/
theorem C3_matched_keywords_never_produced :
    triage_incident (fun _ => 0) "" (some "payment checkout refund") =
      Except.error PyErr.typeError := rfl

/-- C4: the urgency classifier checks the high indicators first — if any
matches, the result is High with confidence 0.80 for every possible
medium indicator list (so the medium set cannot influence it); otherwise
a medium match gives Medium with 0.65; otherwise Low with 0.55 and the
literal empty match list. -/
theorem C4_urgency_contract (raw : String) :
    (_contains_any raw URGENCY_HIGH = true →
      ∀ meds, classifyUrgencyCore URGENCY_HIGH meds raw =
        (Urgency.HIGH, PyVal.bool true, 0.80,
          ["Urgency set to High due to indicators: True."])) ∧
    (_contains_any raw URGENCY_HIGH = false → _contains_any raw URGENCY_MED = true →
      _classify_urgency raw =
        (Urgency.MEDIUM, PyVal.bool true, 0.65,
          ["Urgency set to Medium due to indicators: True."])) ∧
    (_contains_any raw URGENCY_HIGH = false → _contains_any raw URGENCY_MED = false →
      _classify_urgency raw =
        (Urgency.LOW, PyVal.strList [], 0.55,
          ["No urgency indicators found; set to Low."])) := by
  refine ⟨fun hh meds => ?_, fun hh hm => ?_, fun hh hm => ?_⟩ <;>
    simp [classifyUrgencyCore, _classify_urgency, hh, pyRepr] <;>
    simp [hm, pyRepr]

/-- Witness for C4 at a text containing the high indicator `"down"`,
with a non-trivial medium list to exercise the independence. -/
theorem C4_urgency_contract_witness :
    _contains_any "Checkout is down for everyone" URGENCY_HIGH = true ∧
    classifyUrgencyCore URGENCY_HIGH ["slow"] "Checkout is down for everyone" =
      (Urgency.HIGH, PyVal.bool true, 0.80,
        ["Urgency set to High due to indicators: True."]) :=
  ⟨by decide, (C4_urgency_contract "Checkout is down for everyone").1 (by decide) ["slow"]⟩

/-- C5: `triage_incident` fails with the `ValueError` of the validation
step exactly when the trimmed text is empty — on every other input the
failure is the classifier `TypeError`, so `ValueError` is indeed the only
validation failure and it propagates to the caller. -/
theorem C5_invalid_input_iff_empty (h : String → Int) (now : String) (t : Option String) :
    triage_incident h now t = Except.error PyErr.valueError ↔ _normalize t = "" := by
  constructor
  · intro he
    by_contra hne
    rw [triage_typeError_of_nonempty h now t hne] at he
    exact PyErr.noConfusion (Except.error.inj he)
  · exact triage_valueError_of_empty h now t

/-- C6: the spec claims every returned ticket sets `needs_human_review`
by the three review conditions.  No ticket is returned: at the concrete
input below (urgency-High text without error/log details, which the spec
says must set the flag) the call raises `TypeError` before the review
logic runs. -/
theorem C6_review_flag_unreachable :
    triage_incident (fun _ => 0) "" (some "Total outage for everyone") =
      Except.error PyErr.typeError := rfl

/-- C7: the spec claims every returned ticket carries the weighted,
rounded combined confidence.  No ticket is returned: at the concrete
input below the call raises `TypeError` before the confidence formula is
evaluated. -/
theorem C7_confidence_unreachable :
    triage_incident (fun _ => 0) "" (some "Billing is slow today") =
      Except.error PyErr.typeError := rfl

/-- C8: `_missing_info_questions` produces at most four questions, in the
fixed source order (a sublist of the four question sentences), and each
question appears exactly when its evidence keyword set is absent from the
text — the four checks are independent of one another. -/
theorem C8_missing_info_contract (raw : String) :
    (_missing_info_questions raw).length ≤ 4 ∧
    (_missing_info_questions raw).Sublist
      ["When did this start (approx. time and timezone)?",
       "Do you have an error message, code, or log snippet?",
       "Who is affected (team/customers/how many users)?",
       "Which environment is affected (prod/staging/dev)?"] ∧
    ("When did this start (approx. time and timezone)?" ∈ _missing_info_questions raw ↔
      _contains_any raw ["started", "since", "minutes", "hours", "today", "yesterday", "timestamp", "am", "pm"] = false) ∧
    ("Do you have an error message, code, or log snippet?" ∈ _missing_info_questions raw ↔
      _contains_any raw ["error", "message", "code", "screenshot", "log", "stacktrace", "trace"] = false) ∧
    ("Who is affected (team/customers/how many users)?" ∈ _missing_info_questions raw ↔
      _contains_any raw ["affects", "impact", "users", "teams", "customers", "everyone", "all users"] = false) ∧
    ("Which environment is affected (prod/staging/dev)?" ∈ _missing_info_questions raw ↔
      _contains_any raw ["prod", "production", "staging", "dev", "test environment"] = false) := by
  cases h1 : _contains_any raw ["started", "since", "minutes", "hours", "today", "yesterday", "timestamp", "am", "pm"] <;>
  cases h2 : _contains_any raw ["error", "message", "code", "screenshot", "log", "stacktrace", "trace"] <;>
  cases h3 : _contains_any raw ["affects", "impact", "users", "teams", "customers", "everyone", "all users"] <;>
  cases h4 : _contains_any raw ["prod", "production", "staging", "dev", "test environment"] <;>
    simp [_missing_info_questions, h1, h2, h3, h4]

/-- C9: the spec claims every assembled ticket carries a reasoning trace
of three to six lines mirroring the review flag.  No ticket is assembled:
at the concrete input below the call raises `TypeError` before any
reasoning line beyond the classifier is collected. -/
theorem C9_reasoning_unreachable :
    triage_incident (fun _ => 0) "" (some "Fleet dispatch is degraded") =
      Except.error PyErr.typeError := rfl

/-- C10: a `None` text value is coerced to the empty string by
`(text or "")`, so normalization itself never fails and the call fails
with exactly the same `ValueError` as an empty-string input. -/
theorem C10_none_behaves_like_empty (h : String → Int) (now : String) :
    _normalize none = "" ∧
    triage_incident h now none = Except.error PyErr.valueError ∧
    triage_incident h now none = triage_incident h now (some "") := by
  refine ⟨rfl, ?_, ?_⟩
  · exact triage_valueError_of_empty h now none rfl
  · rw [triage_valueError_of_empty h now none rfl,
      triage_valueError_of_empty h now (some "") rfl]
